import Mathlib

/-!
Verification of the KMGI-ROKU feed converter (`convert_to_search_feed.py` and
`convert_to_search_feed_v2.py`) against its natural-language specification.

The two Python scripts are shallowly embedded below.  Python strings are
modelled as lists of characters (`Str`), JSON objects as Lean structures with
`Option` fields for keys that may be absent, and the fallible converter
(`item["id"]` raises `KeyError` when the key is missing) as a function into
`Except`.  Python's prefix slice `s[:n]` (with its negative-index semantics)
is modelled by `pySlice`.
-/

set_option autoImplicit false

namespace KmgiRoku

/-- Python strings, modelled as lists of characters. -/
abbrev Str := List Char

/-- Embed a Lean string literal into the model. -/
def str (s : String) : Str := s.data

/-- Python prefix slice `s[:n]`: a negative bound counts from the end of the
string (clamped at 0), a non-negative bound takes that many characters. -/
def pySlice (s : Str) (n : Int) : Str :=
  s.take (if n < 0 then ((s.length : Int) + n).toNat else n.toNat)

/-- Python `truncate(text, max_len)` from `convert_to_search_feed.py` lines 65-71:
empty (falsy) text is returned as is; text within the limit is returned as
is; otherwise the result is `text[:max_len - 3] + "..."`. -/
def truncate (text : Str) (maxLen : Nat) : Str :=
  if text = [] then text
  else if text.length ≤ maxLen then text
  else pySlice text ((maxLen : Int) - 3) ++ str "..."

/-- Python `s.lower()` (ASCII case mapping suffices for this feed). -/
def lower (s : Str) : Str := s.map Char.toLower

/-- Python `s.upper()`. -/
def upper (s : Str) : Str := s.map Char.toUpper

/-- Python `s.strip()`: whitespace removed from both ends. -/
def stripWs (s : Str) : Str :=
  ((s.dropWhile Char.isWhitespace).reverse.dropWhile Char.isWhitespace).reverse

/-- Python `s.strip('"')`: double-quote characters removed from both ends. -/
def stripQuote (s : Str) : Str :=
  ((s.dropWhile (· == '"')).reverse.dropWhile (· == '"')).reverse

/-- Does `s` start with the pattern `p` (first argument)? -/
def startsWith : Str → Str → Bool
  | [], _ => true
  | _ :: _, [] => false
  | p :: ps, c :: cs => p == c && startsWith ps cs

/-- Python `sub in s`: substring containment (`"" in s` is true). -/
def containsSub (sub : Str) : Str → Bool
  | [] => sub.isEmpty
  | c :: rest => startsWith sub (c :: rest) || containsSub sub rest

/-- The fixed path marker `"/play/"` used for playback-id extraction. -/
def playMarker : Str := str "/play/"

/-- Python `"/play/" in url` (convert_to_search_feed.py line 145). -/
def containsPlay (s : Str) : Bool := containsSub playMarker s

/-- Helper for `splitPlay`: prepend a character to the first segment. -/
def consHead (c : Char) : List Str → List Str
  | [] => [[c]]
  | seg :: more => (c :: seg) :: more

/-- Python `url.split("/play/")` (convert_to_search_feed.py line 146):
left-to-right, non-overlapping splitting on the marker. -/
def splitPlay : Str → List Str
  | '/' :: 'p' :: 'l' :: 'a' :: 'y' :: '/' :: rest => [] :: splitPlay rest
  | c :: rest => consHead c (splitPlay rest)
  | [] => [[]]

/-- Python `re.search(r'/play/(\d+)', url)` returning the captured digit run
(convert_to_search_feed_v2.py lines 105-107): the scan advances one character
at a time and succeeds at the first position where the marker is followed by
at least one digit; the greedy `\d+` captures the maximal digit run. -/
def findPlayDigits : Str → Option Str
  | [] => none
  | c :: rest =>
      if startsWith playMarker (c :: rest) &&
          !(((c :: rest).drop playMarker.length).takeWhile Char.isDigit).isEmpty
      then some (((c :: rest).drop playMarker.length).takeWhile Char.isDigit)
      else findPlayDigits rest

/-- Python `dict.get(key, default)` for the small translation tables. -/
def dictGet (d : List (Str × Str)) (k dflt : Str) : Str :=
  match d.find? (fun p => p.1 == k) with
  | some p => p.2
  | none => dflt

/-- Table `source_map` from convert_to_search_feed.py lines 111-115. -/
def source_map : List (Str × Str) :=
  [(str "USA_TV", str "USA_PR"), (str "MPAA", str "MPAA"), (str "USA_PR", str "USA_PR")]

/-- Table `quality_map` from convert_to_search_feed.py lines 133-138. -/
def quality_map : List (Str × Str) :=
  [(str "HD", str "hd"), (str "SD", str "sd"), (str "UHD", str "uhd"), (str "FHD", str "fhd")]

/-- One entry of a Direct Publisher `content.videos` list. -/
structure Video where
  url : Option Str
  quality : Option Str
  duration : Option Int
deriving DecidableEq, Repr

/-- A Direct Publisher `rating` record. -/
structure RatingRec where
  ratingSource : Option Str
  rating : Option Str
deriving DecidableEq, Repr

/-- A Direct Publisher `content` record; an absent `videos` key behaves like
an empty list in both scripts, so it is modelled as a plain list. -/
structure ContentRec where
  videos : List Video
  duration : Option Int
deriving DecidableEq, Repr

/-- A Direct Publisher source item.  `none` models an absent key (a present
JSON `null` behaves like an absent key in every access the scripts make). -/
structure Item where
  id : Option Str
  title : Option Str
  shortDescription : Option Str
  longDescription : Option Str
  releaseDate : Option Str
  genres : Option (List Str)
  tags : Option (List Str)
  thumbnail : Option Str
  rating : Option RatingRec
  content : Option ContentRec
deriving DecidableEq, Repr

/-- A localized text entry `{value, languages}`; v2 omits the languages key. -/
structure LangText where
  value : Str
  languages : Option (List Str)
deriving DecidableEq, Repr

/-- A Search Feed advisory rating `{source, value}`. -/
structure AdvisoryRating where
  source : Str
  value : Str
deriving DecidableEq, Repr

/-- A Search Feed image entry `{type, url}`. -/
structure ImageRec where
  type : Str
  url : Str
deriving DecidableEq, Repr

/-- A Search Feed play option `{license, quality, playId}`. -/
structure PlayOption where
  license : Str
  quality : Str
  playId : Str
deriving DecidableEq, Repr

/-- The `content` object of a Search Feed asset. -/
structure AssetContent where
  playOptions : List PlayOption
deriving DecidableEq, Repr

/-- A Search Feed asset.  `none` in `longDescriptions`/`tags` models the key
being left out of the emitted JSON object. -/
structure Asset where
  id : Str
  type : Str
  titles : List LangText
  shortDescriptions : List LangText
  longDescriptions : Option (List LangText)
  releaseDate : Str
  genres : List Str
  tags : Option (List Str)
  advisoryRatings : List AdvisoryRating
  images : List ImageRec
  durationInSeconds : Int
  content : AssetContent
deriving DecidableEq, Repr

/-- The failure a conversion can raise: Python's `KeyError` on the mandatory
`item["id"]` access (the spec's `MissingFieldError`). -/
inductive ConvError where
  | keyError : Str → ConvError
deriving DecidableEq, Repr

/-- Table `VALID_GENRES` from convert_to_search_feed.py lines 21-62: the canonical
Roku Search Feed genre vocabulary (stored lowercase), in source order. -/
def VALID_GENRES : List Str :=
  [ str "action", str "action sports", str "adventure", str "aerobics", str "agriculture",
   str "animals", str "animated", str "anime", str "anthology", str "archery",
   str "arm wrestling", str "art", str "arts/crafts", str "artistic gymnastics",
   str "artistic swimming", str "athletics", str "auction", str "auto", str "auto racing",
   str "aviation", str "awards", str "badminton", str "ballet", str "baseball",
   str "basketball", str "3x3 basketball", str "beach soccer", str "beach volleyball",
   str "biathlon", str "bicycle", str "bicycle racing", str "billiards", str "biography",
   str "blackjack", str "bmx racing", str "boat", str "boat racing", str "bobsled",
   str "bodybuilding", str "bowling", str "boxing", str "bullfighting", str "bus./financial",
   str "canoe", str "card games", str "ceremony", str "cheerleading", str "children",
   str "children-music", str "children-special", str "children-talk", str "collectibles",
   str "comedy", str "comedy drama", str "community", str "computers", str "canoe/kayak",
   str "consumer", str "cooking", str "cricket", str "crime", str "crime drama", str "curling",
   str "cycling", str "dance", str "dark comedy", str "darts", str "debate", str "diving",
   str "docudrama", str "documentary", str "dog racing", str "dog show", str "dog sled",
   str "drag racing", str "drama", str "educational", str "entertainment", str "environment",
   str "equestrian", str "erotic", str "event", str "exercise", str "fantasy", str "faith",
   str "fashion", str "fencing", str "field hockey", str "figure skating", str "fishing",
   str "football", str "food", str "fundraiser", str "gaelic football", str "game show",
   str "gaming", str "gay/lesbian", str "golf", str "gymnastics", str "handball", str "health",
   str "historical drama", str "history", str "hockey", str "holiday", str "holiday music",
   str "holiday music special", str "holiday special", str "holiday-children",
   str "holiday-children special", str "home improvement", str "horror", str "horse",
   str "house/garden", str "how-to", str "hunting", str "hurling", str "hydroplane racing",
   str "indoor soccer", str "interview", str "intl soccer", str "judo", str "karate",
   str "kayaking", str "lacrosse", str "law", str "live", str "luge", str "martial arts",
   str "medical", str "military", str "miniseries", str "mixed martial arts",
   str "modern pentathlon", str "motorcycle", str "motorcycle racing", str "motorsports",
   str "mountain biking", str "music", str "music special", str "music talk", str "musical",
   str "musical comedy", str "mystery", str "nature", str "news", str "newsmagazine",
   str "olympics", str "opera", str "outdoors", str "parade", str "paranormal",
   str "parenting", str "performing arts", str "playoff sports", str "poker", str "politics",
   str "polo", str "pool", str "pro wrestling", str "public affairs", str "racquet",
   str "reality", str "religious", str "ringuette", str "road cycling", str "rodeo",
   str "roller derby", str "romance", str "romantic comedy", str "rowing", str "rugby",
   str "running", str "rhythmic gymnastics", str "sailing", str "science",
   str "science fiction", str "self improvement", str "shooting", str "shopping", str "sitcom",
   str "skateboarding", str "skating", str "skeleton", str "skiing", str "snooker",
   str "snowboarding", str "snowmobile", str "soap", str "soap special", str "soap talk",
   str "soccer", str "softball", str "special", str "speed skating", str "sport climbing",
   str "sports", str "sports talk", str "squash", str "standup", str "sumo wrestling",
   str "surfing", str "suspense", str "swimming", str "table tennis", str "taekwondo",
   str "talk", str "technology", str "tennis", str "theater", str "thriller",
   str "track/field", str "track cycling", str "travel", str "trampoline", str "triathlon",
   str "variety", str "volleyball", str "war", str "water polo", str "water skiing",
   str "watersports", str "weather", str "weightlifting", str "western", str "wrestling",
   str "yacht racing"]

/-- Table `VALID_GENRES` from convert_to_search_feed_v2.py lines 17-58; the v2
script carries a textually identical copy of the same 227-entry table. -/
def VALID_GENRES_v2 : List Str := VALID_GENRES

/-- Function `validate_genres` from convert_to_search_feed.py lines 74-80: keep only
genres whose lowercased form is in the canonical set, lowercase the output,
default to `["special"]` when nothing survives. -/
def validate_genres (genres : List Str) : List Str :=
  let valid := genres.filter (fun g => decide (lower g ∈ VALID_GENRES))
  if valid = [] then [str "special"] else valid.map lower

/-- Keyword bucket for church/religious content (v2 lines 66-69). -/
def churchWords : List Str :=
  [ str "church", str "sermon", str "bible", str "pastor", str "worship", str "prayer",
    str "gospel", str "praise", str "ministry", str "missionary", str "baptist",
    str "pastoral", str "deacon", str "sunday", str "galilee", str "scripture",
    str "christmas eve", str "easter", str "revival"]

/-- Keyword bucket for music content (v2 line 73). -/
def musicWords : List Str :=
  [ str "music", str "song", str "concert", str "singing", str "choir", str "hymn"]

/-- Keyword bucket for holiday content (v2 line 77). -/
def holidayWords : List Str :=
  [ str "christmas", str "holiday", str "thanksgiving", str "easter"]

/-- Keyword bucket for news/talk content (v2 line 81). -/
def newsWords : List Str :=
  [ str "news", str "interview", str "talk", str "discussion"]

/-- Keyword bucket for community content (v2 line 85). -/
def communityWords : List Str :=
  [ str "community", str "neighborhood", str "local", str "event"]

/-- Keyword bucket for educational content (v2 line 89). -/
def educationWords : List Str :=
  [ str "education", str "learn", str "class", str "lesson", str "tutorial"]

/-- Function `classify_content` from convert_to_search_feed_v2.py lines 61-93:
first-match-wins keyword buckets over the lowercased concatenation of title,
description and tags; defaults to `["faith"]`.  The duration argument is
accepted and ignored, as in the source. -/
def classify_content (title description : Str) (tags : List Str)
    (duration_secs : Int) : List Str :=
  let text := lower (title ++ str " " ++ description ++ str " " ++
    List.intercalate (str " ") tags)
  if churchWords.any (fun w => containsSub w text) then [str "faith"]
  else if musicWords.any (fun w => containsSub w text) then [str "music"]
  else if holidayWords.any (fun w => containsSub w text) then [str "holiday"]
  else if newsWords.any (fun w => containsSub w text) then [str "talk"]
  else if communityWords.any (fun w => containsSub w text) then [str "community"]
  else if educationWords.any (fun w => containsSub w text) then [str "educational"]
  else [str "faith"]

/-- Lines 85-173 of convert_to_search_feed.py: the body of `convert_item`
once the mandatory id (`iid`) has been read successfully. -/
def convert_item_body (item : Item) (item_type : Str) (iid : Str) : Asset :=
  let title := truncate (item.title.getD (str "Untitled")) 200
  let short_desc := truncate (item.shortDescription.getD title) 200
  let long_desc := truncate (item.longDescription.getD []) 500
  -- lines 107-123: rating conversion (an absent or empty rating dict is
  -- falsy, so it gets the default rating)
  let advisoryRatings : List AdvisoryRating :=
    match item.rating with
    | some r =>
        [{ source := dictGet source_map (r.ratingSource.getD (str "USA_TV")) (str "USA_PR"),
           value := r.rating.getD (str "TV-G") }]
    | none => [{ source := str "USA_PR", value := str "TV-G" }]
  -- lines 125-127: thumbnail (an empty URL is falsy)
  let images : List ImageRec :=
    match item.thumbnail with
    | some tn => if tn ≠ [] then [{ type := str "main", url := tn }] else []
    | none => []
  -- lines 129-158: content/videos → playOptions
  let content := item.content.getD { videos := [], duration := none }
  let playOptions : List PlayOption :=
    if content.videos ≠ [] then
      content.videos.map (fun vid =>
        { license := str "free"
          quality := dictGet quality_map (upper (vid.quality.getD (str "HD"))) (str "hd")
          playId :=
            if containsPlay (vid.url.getD []) then (splitPlay (vid.url.getD [])).getLastD []
            else iid })
    else []
  let playOptions :=
    if playOptions = [] then [{ license := str "free", quality := str "hd", playId := iid }]
    else playOptions
  -- lines 160-165: duration (0 is falsy and gets the 60-second default;
  -- any other integer, negative included, is passed through)
  let durationInSeconds : Int :=
    match content.duration with
    | some d => if d ≠ 0 then d else 60
    | none => 60
  -- lines 167-171: tags (strip('"') runs before strip(), then [:20])
  let tags : Option (List Str) :=
    match item.tags with
    | some ts =>
        if ts ≠ [] then
          let clean_tags := ts.filterMap (fun t =>
            if stripWs (stripQuote t) ≠ [] then some (pySlice (stripWs (stripQuote t)) 20)
            else none)
          if clean_tags ≠ [] then some clean_tags else none
        else none
    | none => none
  { id := pySlice iid 50
    type := item_type
    titles := [{ value := title, languages := some [str "en"] }]
    shortDescriptions := [{ value := short_desc, languages := some [str "en"] }]
    longDescriptions :=
      if long_desc ≠ [] then some [{ value := long_desc, languages := some [str "en"] }]
      else none
    releaseDate := item.releaseDate.getD (str "2025-01-01")
    genres := validate_genres (item.genres.getD [str "special"])
    tags := tags
    advisoryRatings := advisoryRatings
    images := images
    durationInSeconds := durationInSeconds
    content := { playOptions := playOptions } }

/-- Function `convert_item` from convert_to_search_feed.py lines 83-173.  The
`item["id"]` access on line 90 raises `KeyError` when the id is absent;
nothing observable happens before that access, so the check is hoisted. -/
def convert_item (item : Item) (item_type : Str) : Except ConvError Asset :=
  match item.id with
  | none => .error (.keyError (str "id"))
  | some iid => .ok (convert_item_body item item_type iid)

/-- Lines 99-107 of convert_to_search_feed_v2.py: the playback id is the
digit run extracted from the first video's URL, defaulting to the item id. -/
def v2PlayId (item : Item) (iid : Str) : Str :=
  match item.content with
  | some c =>
      match c.videos with
      | [] => iid
      | v :: _ => (findPlayDigits (v.url.getD [])).getD iid
  | none => iid

/-- Lines 109-112 of convert_to_search_feed_v2.py: a missing, null or zero
duration becomes 1; every other integer is passed through. -/
def v2Duration (item : Item) : Int :=
  let duration :=
    match item.content with
    | some c => c.duration.getD 0
    | none => 0
  if duration = 0 then 1 else duration

/-- Lines 99-176 of convert_to_search_feed_v2.py: the body of `convert_item`
once the mandatory id (`iid`) has been read successfully. -/
def convert_item_v2_body (item : Item) (item_type : Str) (iid : Str) : Asset :=
  let play_id := v2PlayId item iid
  let duration := v2Duration item
  -- lines 114-122: a declared "shortform" is kept; any other declared type
  -- is re-classified by the 900-second threshold
  let asset_type :=
    if item_type = str "shortform" then str "shortform"
    else if duration > 900 then str "movie" else str "shortform"
  -- lines 124-131: `or`-defaults (an empty string falls through)
  let title := pySlice (if item.title.getD [] ≠ [] then item.title.getD []
    else str "Untitled") 200
  let short_desc := pySlice (if item.shortDescription.getD [] ≠ []
    then item.shortDescription.getD [] else title) 200
  let long_desc := pySlice (if item.longDescription.getD [] ≠ []
    then item.longDescription.getD [] else short_desc) 500
  let genres := classify_content title short_desc (item.tags.getD []) duration
  -- line 137: tags are truncated but never stripped
  let tags := (item.tags.getD []).filterMap (fun t =>
    if t ≠ [] ∧ 0 < (stripWs t).length then some (pySlice t 20) else none)
  -- lines 139-146: thumbnail
  let images : List ImageRec :=
    match item.thumbnail with
    | some tn => if tn ≠ [] then [{ type := str "main", url := tn }] else []
    | none => []
  { id := iid
    type := asset_type
    titles := [{ value := title, languages := none }]
    shortDescriptions := [{ value := short_desc, languages := none }]
    longDescriptions := some [{ value := long_desc, languages := none }]
    releaseDate := item.releaseDate.getD (str "2025-01-01")
    genres := genres
    tags := some (if tags = [] then [str "faith"] else tags)
    advisoryRatings := [{ source := str "USA_PR", value := str "TV-G" }]
    images := images
    durationInSeconds := duration
    content := { playOptions :=
      [{ license := str "free", quality := str "hd", playId := play_id }] } }

/-- Function `convert_item` from convert_to_search_feed_v2.py lines 96-176.  The
`item["id"]` access on line 101 raises `KeyError` when the id is absent;
nothing observable happens before that access, so the check is hoisted. -/
def convert_item_v2 (item : Item) (item_type : Str) : Except ConvError Asset :=
  match item.id with
  | none => .error (.keyError (str "id"))
  | some iid => .ok (convert_item_v2_body item item_type iid)

/-- Specification-side quality mapping, following the spec's words: the four
source tiers map case-insensitively to their lowercase forms; any other tier
defaults to "hd". -/
def qualityCanon (q : Str) : Str :=
  if upper q = str "HD" then str "hd"
  else if upper q = str "SD" then str "sd"
  else if upper q = str "UHD" then str "uhd"
  else if upper q = str "FHD" then str "fhd"
  else str "hd"

/-- Specification-side playback id, following the spec's words: everything
after the "/play/" marker (the final segment of the left-to-right split) when
the marker occurs in the URL, otherwise the item's own id. -/
def playIdOf (url iid : Str) : Str :=
  if containsPlay url then (splitPlay url).getLastD [] else iid

/-- The tag-cleaning step of convert_to_search_feed.py line 169:
`t.strip('"').strip()` — quotes are stripped first, so quotes nested inside
surrounding whitespace survive. -/
def cleanTag (t : Str) : Str := stripWs (stripQuote t)

/-- The v1 tags field as a function of the source tag list (lines 167-171):
clean each tag, drop the ones that clean to empty, truncate survivors to 20
characters, and omit the field when nothing survives. -/
def v1Tags (ts : List Str) : Option (List Str) :=
  if ts = [] then none
  else
    let clean_tags := ts.filterMap (fun t =>
      if cleanTag t ≠ [] then some (pySlice (cleanTag t) 20) else none)
    if clean_tags = [] then none else some clean_tags

/-- An item with every optional key absent. -/
def emptyItem : Item :=
  { id := none, title := none, shortDescription := none, longDescription := none,
    releaseDate := none, genres := none, tags := none, thumbnail := none,
    rating := none, content := none }

/-- An item whose source duration is the negative integer -5. -/
def negDurItem : Item :=
  { emptyItem with id := some (str "vid-1"),
                   content := some { videos := [], duration := some (-5) } }

/-- An item whose id is 51 characters long. -/
def longIdItem : Item :=
  { emptyItem with
      id := some (str "aaaaaaaaaaaaaaaaaaaaaaaaaaaaaaaaaaaaaaaaaaaaaaaaaaa") }

/-- An item declared as a movie whose duration is only 100 seconds. -/
def shortMovieItem : Item :=
  { emptyItem with id := some (str "vid-2"),
                   content := some { videos := [], duration := some 100 } }

/-- An item with two source videos. -/
def twoVidItem : Item :=
  { emptyItem with
      id := some (str "vid-3"),
      content := some
        { videos :=
            [ { url := some (str "https://x/play/111"), quality := some (str "HD"),
                duration := none },
              { url := some (str "https://x/play/222"), quality := some (str "SD"),
                duration := none } ],
          duration := some 100 } }

/-- The Scenario C item: the spec's tag-cleaning example input. -/
def scenCItem : Item :=
  { emptyItem with
      id := some (str "tag-item"),
      tags := some
        [ str " \"sports\" ", str "",
          str "  \"a-very-long-tag-name-exceeding-twenty\" " ] }

theorem pySlice_ofNat (s : Str) (n : Nat) : pySlice s (n : Int) = s.take n := by
  unfold pySlice
  rw [if_neg (by omega)]
  simp

theorem length_pySlice_le (s : Str) (n : Nat) : (pySlice s (n : Int)).length ≤ n := by
  rw [pySlice_ofNat]
  simp [List.length_take]

/-- For limits of at least 3 the truncated string keeps the first
`L - 3` characters of the input and appends the three dots. -/
theorem truncate_eq_of_lt (s : Str) (L : Nat) (hL : 3 ≤ L) (hs : L < s.length) :
    truncate s L = s.take (L - 3) ++ str "..." := by
  have hne : s ≠ [] := fun h => by simp [h] at hs
  have hgt : ¬ s.length ≤ L := by omega
  rw [truncate, if_neg hne, if_neg hgt]
  have h3 : ((L : Int) - 3) = ((L - 3 : Nat) : Int) := by omega
  rw [h3, pySlice_ofNat]

theorem truncate_length_le (s : Str) (L : Nat) (hL : 3 ≤ L) :
    (truncate s L).length ≤ L := by
  by_cases h0 : s = []
  · simp [truncate, h0]
  · by_cases h1 : s.length ≤ L
    · rw [truncate, if_neg h0, if_pos h1]
      exact h1
    · rw [truncate_eq_of_lt s L hL (by omega)]
      have : (str "...").length = 3 := by decide
      simp only [List.length_append, List.length_take, this]
      omega

/-- Claim C4 (amended): for every string `s` and every limit `L ≥ 3`,
`truncate(s, L)` has length at most `L`; if `len(s) ≤ L` the result equals
`s`; otherwise the result ends with `"..."` and its first `L - 3` characters
equal the first `L - 3` characters of `s`.  (The limit must be at least 3:
for smaller limits the Python slice `text[:max_len - 3]` wraps around to the
end of the string and the bound fails, see the counterexample.) -/
theorem C4_truncate_correct (s : Str) (L : Nat) (hL : 3 ≤ L) :
    (truncate s L).length ≤ L ∧
    (s.length ≤ L → truncate s L = s) ∧
    (L < s.length →
      (∃ p, truncate s L = p ++ str "...") ∧
      (truncate s L).take (L - 3) = s.take (L - 3)) := by
  refine ⟨truncate_length_le s L hL, ?_, ?_⟩
  · intro h1
    by_cases h0 : s = [] <;> simp [truncate, h0, h1]
  · intro hlt
    rw [truncate_eq_of_lt s L hL hlt]
    refine ⟨⟨s.take (L - 3), rfl⟩, ?_⟩
    have hlen : (s.take (L - 3)).length = L - 3 := by
      simp [List.length_take]
      omega
    rw [List.take_append_of_le_length (by omega), List.take_take]
    simp

/-- Witness for C4: the amended statement evaluated at `s = "abcdefgh"`,
`L = 5`, with the overflow branch discharged concretely. -/
theorem C4_truncate_correct_witness :
    (truncate (str "abcdefgh") 5).length ≤ 5 ∧
    (∃ p, truncate (str "abcdefgh") 5 = p ++ str "...") ∧
    (truncate (str "abcdefgh") 5).take 2 = (str "abcdefgh").take 2 := by
  have h := C4_truncate_correct (str "abcdefgh") 5 (by decide)
  exact ⟨h.1, (h.2.2 (by decide)).1, (h.2.2 (by decide)).2⟩

/-- Counterexample to C4 as stated: at the limit `L = 2` the result of
`truncate("abcde", 2)` is `"abcd..."`, of length 7 > 2, because the Python
slice `text[:2 - 3]` keeps all but the last character. -/
theorem C4_counterexample :
    truncate (str "abcde") 2 = str "abcd..." ∧
    ¬ (truncate (str "abcde") 2).length ≤ 2 := by
  constructor
  · decide
  · decide

/-- Claim C9 (amended): truncation is idempotent for every limit `L ≥ 3`:
`truncate(truncate(s, L), L) = truncate(s, L)`.  (For `L = 1` and `L = 2`
idempotence fails, see the counterexample.) -/
theorem C9_truncate_idem (s : Str) (L : Nat) (hL : 3 ≤ L) :
    truncate (truncate s L) L = truncate s L := by
  have hlen := truncate_length_le s L hL
  by_cases h0 : truncate s L = []
  · rw [truncate, if_pos h0]
  · rw [truncate, if_neg h0, if_pos hlen]

/-- Witness for C9: the amended statement evaluated at `s = "idempotence"`,
`L = 6`. -/
theorem C9_truncate_idem_witness :
    truncate (truncate (str "idempotence") 6) 6 = truncate (str "idempotence") 6 :=
  C9_truncate_idem (str "idempotence") 6 (by decide)

/-- Counterexample to C9 as stated: at the limit `L = 1`,
`truncate("abcde", 1) = "abc..."` but truncating that again gives
`"abc...."`, so re-truncation is not idempotent for every limit. -/
theorem C9_counterexample :
    truncate (truncate (str "abcde") 1) 1 ≠ truncate (str "abcde") 1 := by
  decide

theorem beq_false_of_ne {a b : Str} (h : ¬ b = a) : (a == b) = false := by
  simp only [beq_eq_false_iff_ne, ne_eq]
  exact fun hh => h hh.symm

/-- The code's table lookup `quality_map.get(q.upper(), "hd")` agrees with
the spec-side case-insensitive four-tier mapping. -/
theorem dictGet_quality (q : Str) :
    dictGet quality_map (upper q) (str "hd") = qualityCanon q := by
  unfold dictGet quality_map qualityCanon
  by_cases h1 : upper q = str "HD"
  · rw [h1]; decide
  · have eHD := beq_false_of_ne h1
    by_cases h2 : upper q = str "SD"
    · rw [h2]; decide
    · have eSD := beq_false_of_ne h2
      by_cases h3 : upper q = str "UHD"
      · rw [h3]; decide
      · have eUHD := beq_false_of_ne h3
        by_cases h4 : upper q = str "FHD"
        · rw [h4]; decide
        · have eFHD := beq_false_of_ne h4
          simp [List.find?, eHD, eSD, eUHD, eFHD, h1, h2, h3, h4]

/-- Every result of `classify_content` is a non-empty list of canonical
genres: each branch returns one of six fixed singletons. -/
theorem classify_content_mem (t d : Str) (tags : List Str) (dur : Int) :
    classify_content t d tags dur ≠ [] ∧
    ∀ g ∈ classify_content t d tags dur, g ∈ VALID_GENRES_v2 := by
  simp only [classify_content]
  split_ifs <;> exact ⟨by decide, by decide⟩

/-- Every result of `validate_genres` is a non-empty list of canonical
genres. -/
theorem validate_genres_mem (gs : List Str) :
    validate_genres gs ≠ [] ∧ ∀ g ∈ validate_genres gs, g ∈ VALID_GENRES := by
  unfold validate_genres
  by_cases h : gs.filter (fun g => decide (lower g ∈ VALID_GENRES)) = []
  · rw [if_pos h]
    exact ⟨by decide, by decide⟩
  · rw [if_neg h]
    constructor
    · simpa using h
    · intro g hg
      rw [List.mem_map] at hg
      obtain ⟨g', hg', rfl⟩ := hg
      rw [List.mem_filter] at hg'
      simpa using hg'.2

theorem convert_item_toOption (item : Item) (t iid : Str) (h : item.id = some iid) :
    (convert_item item t).toOption = some (convert_item_body item t iid) := by
  simp [convert_item, h, Except.toOption]

theorem convert_item_v2_toOption (item : Item) (t iid : Str) (h : item.id = some iid) :
    (convert_item_v2 item t).toOption = some (convert_item_v2_body item t iid) := by
  simp [convert_item_v2, h, Except.toOption]

/-- Every element of a `v1Tags` result has at most 20 characters. -/
theorem v1Tags_length_le (tl ts : List Str) (htl : v1Tags ts = some tl) :
    ∀ tg ∈ tl, tg.length ≤ 20 := by
  intro tg htg
  simp only [v1Tags, cleanTag] at htl
  by_cases hts : ts = []
  · rw [if_pos hts] at htl
    exact Option.noConfusion htl
  · rw [if_neg hts] at htl
    by_cases hct : ts.filterMap (fun tg =>
        if stripWs (stripQuote tg) ≠ [] then some (pySlice (stripWs (stripQuote tg)) 20)
        else none) = []
    · rw [if_pos hct] at htl
      exact Option.noConfusion htl
    · rw [if_neg hct] at htl
      obtain rfl := Option.some.inj htl
      rw [List.mem_filterMap] at htg
      obtain ⟨a, _, ha⟩ := htg
      by_cases hc : stripWs (stripQuote a) ≠ []
      · rw [if_pos hc] at ha
        obtain rfl := Option.some.inj ha
        exact length_pySlice_le (stripWs (stripQuote a)) 20
      · rw [if_neg hc] at ha
        exact Option.noConfusion ha

/-- Claim C1 (evaluation of the failing input): an item whose source
duration is the negative integer -5 is converted by both variants into an
asset with `durationInSeconds = -5` — below the minimum of 1 the claim
requires — even though `advisoryRatings` and `content.playOptions` are
non-empty as claimed.  v1 replaces only falsy (missing/zero) durations by
60; v2 replaces only missing/zero durations by 1; negative integers pass
through both. -/
theorem C1_negative_duration_bug :
    ((convert_item negDurItem (str "movie")).toOption.map
        (fun a => (a.durationInSeconds, a.advisoryRatings.length,
                   a.content.playOptions.length))) = some (-5, 1, 1) ∧
    ((convert_item_v2 negDurItem (str "movie")).toOption.map Asset.durationInSeconds)
      = some (-5) ∧
    ¬ (1 : Int) ≤ -5 :=
  ⟨by decide, by decide, by decide⟩

/-- Claim C2 (amended): for every item with an id, the v1 asset id is
`item.id` truncated to its first 50 characters (hence of length at most
50), while the v2 asset id is `item.id` passed through unchanged (the v2
script never truncates it). -/
theorem C2_id_bound (item : Item) (iid t : Str) (h : item.id = some iid) :
    (convert_item item t).toOption.map Asset.id = some (pySlice iid 50) ∧
    (pySlice iid 50).length ≤ 50 ∧
    (convert_item_v2 item t).toOption.map Asset.id = some iid := by
  refine ⟨?_, length_pySlice_le iid 50, ?_⟩
  · rw [convert_item_toOption item t iid h, Option.map_some']
    simp [convert_item_body]
  · rw [convert_item_v2_toOption item t iid h, Option.map_some']
    simp [convert_item_v2_body]

/-- Witness for C2: the amended statement evaluated on the two-video item
(id `"vid-3"`, 5 characters). -/
theorem C2_id_bound_witness :
    (convert_item twoVidItem (str "movie")).toOption.map Asset.id
      = some (pySlice (str "vid-3") 50) ∧
    (pySlice (str "vid-3") 50).length ≤ 50 ∧
    (convert_item_v2 twoVidItem (str "movie")).toOption.map Asset.id
      = some (str "vid-3") :=
  C2_id_bound twoVidItem (str "vid-3") (str "movie") (by decide)

/-- Counterexample to C2 as stated: the v2 variant keeps a 51-character id
intact, so the produced asset violates the 50-character bound. -/
theorem C2_counterexample :
    ((convert_item_v2 longIdItem (str "movie")).toOption.map (fun a => a.id.length))
      = some 51 ∧ ¬ (51 : Nat) ≤ 50 :=
  ⟨by decide, by decide⟩

/-- Claim C3: for every produced asset the genres list is non-empty and
drawn from the canonical set, and under the v1 filter strategy exactly the
source genres whose lowercase form is in the set are kept, lowercased, in
order, with `["special"]` substituted when the filter result is empty; the
v1 asset's genres field is exactly `validate_genres` of the source genres
(defaulted to `["special"]`), and every v2 asset's genres (produced by the
classify strategy) is likewise a non-empty list of canonical genres. -/
theorem C3_genre_totality (gs : List Str) (item : Item) (iid t : Str)
    (h : item.id = some iid) :
    (validate_genres gs ≠ [] ∧ ∀ g ∈ validate_genres gs, g ∈ VALID_GENRES) ∧
    (gs.filter (fun g => decide (lower g ∈ VALID_GENRES)) = [] →
      validate_genres gs = [str "special"]) ∧
    (gs.filter (fun g => decide (lower g ∈ VALID_GENRES)) ≠ [] →
      validate_genres gs =
        (gs.filter (fun g => decide (lower g ∈ VALID_GENRES))).map lower) ∧
    ((convert_item item t).toOption.map Asset.genres =
      some (validate_genres (item.genres.getD [str "special"]))) ∧
    (∀ gl, (convert_item_v2 item t).toOption.map Asset.genres = some gl →
      gl ≠ [] ∧ ∀ g ∈ gl, g ∈ VALID_GENRES_v2) := by
  refine ⟨validate_genres_mem gs, ?_, ?_, ?_, ?_⟩
  · intro hf
    simp only [validate_genres]
    rw [if_pos hf]
  · intro hf
    simp only [validate_genres]
    rw [if_neg hf]
  · rw [convert_item_toOption item t iid h, Option.map_some']
    simp [convert_item_body]
  · intro gl hgl
    rw [convert_item_v2_toOption item t iid h, Option.map_some'] at hgl
    obtain h' := Option.some.inj hgl
    subst h'
    simp only [convert_item_v2_body]
    exact classify_content_mem _ _ _ _

/-- Witness for C3: the filter strategy evaluated on `["Drama", "Qqq"]`
(one canonical and one unknown genre) and on `["Qqq"]` alone, and the
classify strategy evaluated on the Scenario C item. -/
theorem C3_genre_totality_witness :
    validate_genres [str "Drama", str "Qqq"] = [str "drama"] ∧
    validate_genres [str "Qqq"] = [str "special"] ∧
    [str "faith"] ≠ ([] : List Str) := by
  have h1 := C3_genre_totality [str "Drama", str "Qqq"] scenCItem (str "tag-item")
    (str "movie") (by decide)
  have h2 := C3_genre_totality [str "Qqq"] scenCItem (str "tag-item")
    (str "movie") (by decide)
  refine ⟨?_, ?_, ?_⟩
  · exact (h1.2.2.1 (by decide)).trans (by decide)
  · exact h2.2.1 (by decide)
  · exact (h1.2.2.2.2 [str "faith"] (by decide)).1

/-- Claim C5 (amended): the v1 converter always returns the caller's
declared type; the v2 converter returns "shortform" when that is declared,
but re-classifies any other declared type by the 900-second threshold on
the adjusted duration, so a declared "movie" is not authoritative in v2. -/
theorem C5_type_classification (item : Item) (iid t : Str) (h : item.id = some iid) :
    (convert_item item t).toOption.map Asset.type = some t ∧
    (convert_item_v2 item (str "shortform")).toOption.map Asset.type
      = some (str "shortform") ∧
    (t ≠ str "shortform" →
      (convert_item_v2 item t).toOption.map Asset.type =
        some (if 900 < v2Duration item then str "movie" else str "shortform")) := by
  refine ⟨?_, ?_, ?_⟩
  · rw [convert_item_toOption item t iid h, Option.map_some']
    simp [convert_item_body]
  · rw [convert_item_v2_toOption item (str "shortform") iid h, Option.map_some']
    simp [convert_item_v2_body]
  · intro ht
    rw [convert_item_v2_toOption item t iid h, Option.map_some']
    simp [convert_item_v2_body, ht]

/-- Witness for C5: the amended statement evaluated on the 100-second item
declared as "movie". -/
theorem C5_type_classification_witness :
    (convert_item shortMovieItem (str "movie")).toOption.map Asset.type
      = some (str "movie") ∧
    (convert_item_v2 shortMovieItem (str "shortform")).toOption.map Asset.type
      = some (str "shortform") ∧
    (convert_item_v2 shortMovieItem (str "movie")).toOption.map Asset.type =
      some (if 900 < v2Duration shortMovieItem then str "movie" else str "shortform") := by
  have h := C5_type_classification shortMovieItem (str "vid-2") (str "movie") (by decide)
  exact ⟨h.1, h.2.1, h.2.2 (by decide)⟩

/-- Counterexample to C5 as stated: the v2 converter, given the declared
type "movie" and a 100-second item, returns type "shortform" — the declared
type is overridden by the duration threshold. -/
theorem C5_counterexample :
    (convert_item_v2 shortMovieItem (str "movie")).toOption.map Asset.type
      = some (str "shortform") ∧ str "shortform" ≠ str "movie" :=
  ⟨by decide, by decide⟩

/-- Claim C6 (amended): the v1 converter emits one play option per source
video — license "free", quality mapped case-insensitively from the four
source tiers with default "hd", playId the final segment after the
"/play/" marker (falling back to the item id) — and one synthetic option
keyed by the item id when there are no videos; the v2 converter always
emits exactly one play option with license "free", quality "hd" and the
digit run extracted from the first video's URL (falling back to the item
id), regardless of how many videos the source supplies. -/
theorem C6_play_options (item : Item) (iid t : Str) (h : item.id = some iid) :
    ((convert_item item t).toOption.map (fun a => a.content.playOptions)) =
      some
        (if (item.content.getD { videos := [], duration := none }).videos = []
         then [{ license := str "free", quality := str "hd", playId := iid }]
         else (item.content.getD { videos := [], duration := none }).videos.map
           (fun vid =>
             { license := str "free",
               quality := qualityCanon (vid.quality.getD (str "HD")),
               playId := playIdOf (vid.url.getD []) iid })) ∧
    ((convert_item_v2 item t).toOption.map (fun a => a.content.playOptions)) =
      some [{ license := str "free", quality := str "hd", playId := v2PlayId item iid }] := by
  constructor
  · rw [convert_item_toOption item t iid h, Option.map_some']
    by_cases hv : (item.content.getD { videos := [], duration := none }).videos = []
    · simp [convert_item_body, hv]
    · rw [if_neg hv]
      simp only [convert_item_body, hv, ne_eq, not_false_eq_true, if_true,
        List.map_eq_nil_iff, if_false, if_neg hv]
      congr 1
      exact List.map_congr_left (fun vid _ => by simp [dictGet_quality, playIdOf])
  · rw [convert_item_v2_toOption item t iid h, Option.map_some']
    simp [convert_item_v2_body]

/-- Witness for C6: the amended statement evaluated on the two-video item;
v1 produces two play options (the second with quality "sd" and playId
"222"), v2 collapses them to a single "hd" option. -/
theorem C6_play_options_witness :
    ((convert_item twoVidItem (str "movie")).toOption.map
      (fun a => a.content.playOptions)) =
      some [ { license := str "free", quality := str "hd", playId := str "111" },
             { license := str "free", quality := str "sd", playId := str "222" } ] ∧
    ((convert_item_v2 twoVidItem (str "movie")).toOption.map
      (fun a => a.content.playOptions)) =
      some [{ license := str "free", quality := str "hd", playId := str "111" }] := by
  have h := C6_play_options twoVidItem (str "vid-3") (str "movie") (by decide)
  exact ⟨h.1.trans (by decide), h.2.trans (by decide)⟩

/-- Counterexample to C6 as stated: the v2 converter emits a single play
option for an item with two source videos, not one per video entry. -/
theorem C6_counterexample :
    ((convert_item_v2 twoVidItem (str "shortform")).toOption.map
      (fun a => a.content.playOptions.length)) = some 1 ∧
    (twoVidItem.content.getD { videos := [], duration := none }).videos.length = 2 ∧
    (1 : Nat) ≠ 2 :=
  ⟨by decide, by decide, by decide⟩

/-- Claim C7 (amended): the v1 tag cleaning runs `strip('"')` before
`strip()`, so quote characters nested inside surrounding whitespace are
retained; each surviving cleaned tag is truncated to at most 20 characters
and tags cleaning to empty are dropped.  On the Scenario C input the v1
output is `['"sports"', '"a-very-long-tag-nam']` (quotes kept, truncated
to 20), not the spec's `["sports", "a-very-long-tag-name-ex"]`; v2
truncates without any stripping, keeping the surrounding whitespace. -/
theorem C7_tags (item : Item) (iid t : Str) (h : item.id = some iid) :
    ((convert_item item t).toOption.map Asset.tags)
      = some (v1Tags (item.tags.getD [])) ∧
    (∀ tl, v1Tags (item.tags.getD []) = some tl → ∀ tg ∈ tl, tg.length ≤ 20) ∧
    ((convert_item scenCItem (str "movie")).toOption.map Asset.tags) =
      some (some [str "\"sports\"", str "\"a-very-long-tag-nam"]) ∧
    ((convert_item_v2 scenCItem (str "shortform")).toOption.map Asset.tags) =
      some (some [str " \"sports\" ", str "  \"a-very-long-tag-n"]) := by
  refine ⟨?_, fun tl htl => v1Tags_length_le tl _ htl, by decide, by decide⟩
  rw [convert_item_toOption item t iid h, Option.map_some']
  cases htags : item.tags with
  | none => simp [convert_item_body, htags, v1Tags]
  | some ts =>
      simp only [convert_item_body, htags, Option.getD_some, v1Tags, cleanTag]
      by_cases hts : ts = []
      · rw [if_neg (not_not_intro hts), if_pos hts]
      · rw [if_pos hts, if_neg hts]
        by_cases hct : ts.filterMap (fun tg =>
            if stripWs (stripQuote tg) ≠ [] then some (pySlice (stripWs (stripQuote tg)) 20)
            else none) = []
        · rw [if_neg (not_not_intro hct), if_pos hct]
        · rw [if_pos hct, if_neg hct]

/-- Witness for C7: the amended statement evaluated on the Scenario C
item, with the length bound instantiated at its cleaned tag list. -/
theorem C7_tags_witness :
    ((convert_item scenCItem (str "movie")).toOption.map Asset.tags)
      = some (v1Tags (scenCItem.tags.getD [])) ∧
    (str "\"sports\"").length ≤ 20 := by
  have h := C7_tags scenCItem (str "tag-item") (str "movie") (by decide)
  refine ⟨h.1, ?_⟩
  have hb := h.2.1 [str "\"sports\"", str "\"a-very-long-tag-nam"] (by decide)
  exact hb (str "\"sports\"") (by decide)

/-- Counterexample to C7 as stated: on the Scenario C tag list the v1
converter emits `'"sports"'` with its quotes intact (because `strip('"')`
runs before `strip()`), so the output differs from the claimed
`["sports", "a-very-long-tag-name-ex"]` — whose second element, at 23
characters, would itself violate the claimed 20-character truncation. -/
theorem C7_counterexample :
    ((convert_item scenCItem (str "movie")).toOption.map Asset.tags) =
      some (some [str "\"sports\"", str "\"a-very-long-tag-nam"]) ∧
    (some (some [str "\"sports\"", str "\"a-very-long-tag-nam"]) : Option (Option (List Str)))
      ≠ some (some [str "sports", str "a-very-long-tag-name-ex"]) :=
  ⟨by decide, by decide⟩

/-- Claim C8: conversion fails, with the distinguishable missing-id error,
exactly when the source record lacks the mandatory id, in both variants;
when the id is present the conversion returns an asset without raising
(all other absent fields are repaired by their defaults). -/
theorem C8_id_mandatory (item : Item) (t : Str) :
    ((convert_item item t = .error (.keyError (str "id"))) ↔ item.id = none) ∧
    ((∃ a, convert_item item t = .ok a) ↔ item.id ≠ none) ∧
    ((convert_item_v2 item t = .error (.keyError (str "id"))) ↔ item.id = none) ∧
    ((∃ a, convert_item_v2 item t = .ok a) ↔ item.id ≠ none) := by
  cases h : item.id <;> simp [convert_item, convert_item_v2, h]

/-- Claim C10: in both variants a missing `releaseDate` becomes the
hard-coded literal "2025-01-01" and a supplied `releaseDate` is passed
through unchanged (the asset's releaseDate is `getD` of the source field). -/
theorem C10_release_date (item : Item) (iid t : Str) (h : item.id = some iid) :
    ((convert_item item t).toOption.map Asset.releaseDate) =
      some (item.releaseDate.getD (str "2025-01-01")) ∧
    ((convert_item_v2 item t).toOption.map Asset.releaseDate) =
      some (item.releaseDate.getD (str "2025-01-01")) := by
  constructor
  · rw [convert_item_toOption item t iid h, Option.map_some']
    simp [convert_item_body]
  · rw [convert_item_v2_toOption item t iid h, Option.map_some']
    simp [convert_item_v2_body]

/-- Witness for C10: the statement evaluated on an item without a release
date (yielding the literal default). -/
theorem C10_release_date_witness :
    ((convert_item negDurItem (str "movie")).toOption.map Asset.releaseDate) =
      some (negDurItem.releaseDate.getD (str "2025-01-01")) ∧
    ((convert_item_v2 negDurItem (str "movie")).toOption.map Asset.releaseDate) =
      some (negDurItem.releaseDate.getD (str "2025-01-01")) :=
  C10_release_date negDurItem (str "vid-1") (str "movie") (by decide)

end KmgiRoku
